import Mathlib

/-
Verification development for the OpenID base client
(fedora/client/openidcli.py).

The embedding models the session store (in-memory defaultdict plus the
sqlite sessions table), the login state machine, and the authenticated
request dispatcher, translated statement by statement from the source.
Python runtime errors that the source can raise (KeyError, AttributeError,
TypeError, the LoginRequiredException class of the module, the generic
unknown-verb Exception) are modelled by the PyError type.
Pure name-resolution slips of the draft module that do not affect the
data or control flow (the attribute self.session versus the assigned
self._session, the unbalanced parenthesis inside a log.debug call, the
body-less conditional at the top of _set_id) are not modelled; slips that
change behaviour are modelled faithfully and noted at the definition.
-/

namespace PyFedora

/-- Python errors and module exception classes that the code can raise:
KeyError and AttributeError from subscripts and attribute reads, the
TypeError of a call with an unexpected keyword argument, the
LoginRequiredException class of the module, and the generic
unknown-verb Exception of send_request. -/
inductive PyError where
  | keyError (k : String)
  | attributeError (a : String)
  | typeError (msg : String)
  | loginRequired (msg : String)
  | unknownVerb (msg : String)
deriving DecidableEq, Repr

/-- One row of the sqlite sessions table:
create table sessions (username text, base_url text, session_id text,
primary key (username, base_url)). -/
structure Row where
  username : String
  base_url : String
  session_id : String
deriving DecidableEq, Repr

/-- Values held by the in-memory _session_id_map.  The map is a
defaultdict(str), so it normally holds strings, but _get_id stores
found_sessions[0] — the entire fetched row, a 3-tuple — on a disk hit. -/
inductive Val where
  | str (s : String)
  | row (r : Row)
deriving DecidableEq, Repr

/-- Python truthiness of a cached value: a string is truthy when
non-empty; a fetched row is a non-empty tuple, hence always truthy. -/
def Val.truthy : Val → Bool
  | .str s => !(s == "")
  | .row _ => true

/-- Python dictionary lookup on an association list (first binding wins,
as the insert below keeps keys unique). -/
def dictLookup {α : Type} : List (String × α) → String → Option α
  | [], _ => none
  | (k, v) :: rest, key => if k == key then some v else dictLookup rest key

/-- Python dictionary assignment d[k] = v: replace the existing binding
in place, else append. -/
def dictInsert {α : Type} : List (String × α) → String → α → List (String × α)
  | [], key, v => [(key, v)]
  | (k, w) :: rest, key, v =>
      if k == key then (key, v) :: rest else (k, w) :: dictInsert rest key v

/-- Python del d[k] once the key is known to be present: drop the binding. -/
def dictRemove {α : Type} (m : List (String × α)) (key : String) :
    List (String × α) :=
  m.filter (fun kv => !(kv.1 == key))

/-- Python `x in d` membership test. -/
def dictContains {α : Type} (m : List (String × α)) (key : String) : Bool :=
  (dictLookup m key).isSome

/-- Python `a or b` for an optional string argument: the default is used
when the argument is absent or empty (falsy). -/
def pyOr (o : Option String) (d : String) : String :=
  match o with
  | none => d
  | some s => if s == "" then d else s

/-- Decide whether the character list in the second argument begins with
the first argument (the model of str.startswith). -/
def listStarts : List Char → List Char → Bool
  | [], _ => true
  | _ :: _, [] => false
  | p :: ps, c :: cs => p == c && listStarts ps cs

/-- String version of listStarts: s begins with pre. -/
def strStarts (pre s : String) : Bool :=
  listStarts pre.toList s.toList

/-- Split a character list at the first occurrence of a separator,
returning the part before it and the part after it, or none when the
separator does not occur. -/
def breakOn (sep : List Char) : List Char → Option (List Char × List Char)
  | [] => none
  | c :: cs =>
      if listStarts sep (c :: cs) then some ([], (c :: cs).drop sep.length)
      else
        match breakOn sep cs with
        | none => none
        | some (a, b) => some (c :: a, b)

/-- Keep everything of a character list up to and including its last
slash; none when it has no slash. -/
def upToLastSlash : List Char → Option (List Char)
  | [] => none
  | c :: cs =>
      match upToLastSlash cs with
      | some r => some (c :: r)
      | none => if c == '/' then some [c] else none

/-- Model of the urllib urljoin collaborator, restricted to the http url
shapes this client produces: an empty relative part yields the base, a
part carrying a scheme separator is already absolute, a part beginning
with a slash is resolved against the scheme and host of the base, and any
other part replaces the last segment of the base path. -/
def urljoin (base rel : String) : String :=
  if rel == "" then base
  else if (breakOn ([':', '/', '/']) rel.toList).isSome then rel
  else
    match rel.toList with
    | '/' :: _ =>
        match breakOn ([':', '/', '/']) base.toList with
        | some (scheme, restA) =>
            String.mk (scheme ++ [':', '/', '/'] ++
              restA.takeWhile (fun c => !(c == '/')) ++ rel.toList)
        | none => rel
    | _ =>
        match upToLastSlash base.toList with
        | some pre => String.mk (pre ++ rel.toList)
        | none => rel

/-- Translation of absolute_url: join two url parts when the second does
not already start with the first. -/
def absolute_url (beginning e : String) : String :=
  if strStarts beginning e then e else urljoin beginning e

/-- Client state: configuration resolved in the constructor, the
in-memory _session_id_map (a defaultdict from key strings to cached
values), and the connection view of the sessions table of the sqlite
file. -/
structure Client where
  base_url : String
  login_url : String
  username : Option String
  cache_session : Bool
  map : List (String × Val)
  db : List Row
deriving DecidableEq, Repr

/-- Replace the in-memory map of a client. -/
def withMap (c : Client) (m : List (String × Val)) : Client :=
  ⟨c.base_url, c.login_url, c.username, c.cache_session, m, c.db⟩

/-- Replace the sessions table of a client. -/
def withDb (c : Client) (d : List Row) : Client :=
  ⟨c.base_url, c.login_url, c.username, c.cache_session, c.map, d⟩

/-- Cache key built by _get_id, _set_id and _del_id:
base_url, a colon, then the username, after both defaults are applied. -/
def sessionKey (c : Client) (bu : Option String) : String :=
  pyOr bu c.base_url ++ ":" ++ pyOr c.username ""

/-- The where clause shared by the select and delete statements:
username = ? and base_url = ?. -/
def rowMatches (username base_url : String) (r : Row) : Bool :=
  r.username == username && r.base_url == base_url

/-- Result of the select in _get_id on the sessions table. -/
def lookupRows (c : Client) (base_url username : String) : List Row :=
  c.db.filter (rowMatches username base_url)

/-- Translation of _get_id.  The first subscript of the defaultdict
materialises an empty-string entry for an absent key; on an in-memory
miss with a username and caching enabled the sessions table is consulted
and a hit stores found_sessions[0] — the whole row, not its session_id
column — into the map; the value then found under the key is returned. -/
def _get_id (c : Client) (bu : Option String) : Val × Client :=
  let base_url := pyOr bu c.base_url
  let username := pyOr c.username ""
  let key := base_url ++ ":" ++ username
  let m0 :=
    match dictLookup c.map key with
    | some _ => c.map
    | none => dictInsert c.map key (.str "")
  let v0 := (dictLookup m0 key).getD (.str "")
  if v0.truthy then (v0, withMap c m0)
  else
    let m1 :=
      if username == "" then m0
      else if c.cache_session then
        match lookupRows c base_url username with
        | [] => m0
        | r :: _ => dictInsert m0 key (.row r)
      else m0
    ((dictLookup m1 key).getD (.str ""), withMap c m1)

/-- Translation of _set_id.  The in-memory assignment always happens;
with a username and caching enabled the disk branch then calls
cursor.exectue — a misspelling of execute, an attribute that cursors do
not have — so it raises AttributeError before any insert or update runs
(the sqlite3.IntegrityError handler around it is unreachable) and the
sessions table is left untouched.  The second component is the exception
the call raises, if any. -/
def _set_id (c : Client) (session_id : String) (bu : Option String) :
    Client × Option PyError :=
  let base_url := pyOr bu c.base_url
  let username := pyOr c.username ""
  let key := base_url ++ ":" ++ username
  let c1 := withMap c (dictInsert c.map key (.str session_id))
  if username == "" then (c1, none)
  else if c1.cache_session then (c1, some (.attributeError "exectue"))
  else (c1, none)

/-- Translation of _del_id.  The del statement on the defaultdict raises
KeyError when the key has never been materialised; otherwise the entry is
dropped and, with a username and caching enabled, the matching rows are
deleted from the sessions table. -/
def _del_id (c : Client) (bu : Option String) : Client × Option PyError :=
  let base_url := pyOr bu c.base_url
  let username := pyOr c.username ""
  let key := base_url ++ ":" ++ username
  match dictLookup c.map key with
  | none => (c, some (.keyError key))
  | some _ =>
    let c1 := withMap c (dictRemove c.map key)
    if username == "" then (c1, none)
    else if c1.cache_session then
      (withDb c1 (c1.db.filter (fun r => !(rowMatches username base_url r))),
        none)
    else (c1, none)

/-- Filesystem and sqlite circumstances that _initialize_session_cache
can meet: whether the session directory exists, whether creating it
succeeds, whether the session file exists, whether the create-table
statement succeeds (sqlite3.DatabaseError when the file is not a
database), whether connecting to an existing file succeeds
(sqlite3.OperationalError on permission problems), and the rows an
existing readable file holds. -/
structure StorageEnv where
  dirExists : Bool
  mkdirOk : Bool
  fileExists : Bool
  createTableOk : Bool
  connectOk : Bool
  existingTable : List Row
deriving DecidableEq, Repr

/-- Translation of _initialize_session_cache.  Its stated fallback is to
return None on any problem, and the corrupt-file and permission branches
do so; but in the directory-creation branch the code applies .format to
the result of log.warning — which is None — so that branch raises
AttributeError instead of returning None. -/
def initializeSessionCache (env : StorageEnv) :
    Except PyError (Option (List Row)) :=
  if !env.dirExists && !env.mkdirOk then
    .error (.attributeError "format")
  else if !env.fileExists then
    if env.createTableOk then .ok (some []) else .ok none
  else
    if env.connectOk then .ok (some env.existingTable) else .ok none

/-- Translation of the constructor paths the claims use: resolve the
login url, initialise the session cache when requested (disabling
caching when that returns None), and start with an empty in-memory
defaultdict. -/
def initClient (base_url : String) (login_url : Option String)
    (username : Option String) (cache_session : Bool) (env : StorageEnv) :
    Except PyError Client :=
  let lu :=
    match login_url with
    | some u => u
    | none => urljoin base_url "/login"
  if cache_session then
    match initializeSessionCache env with
    | .error e => .error e
    | .ok none => .ok ⟨base_url, lu, username, false, [], []⟩
    | .ok (some table) => .ok ⟨base_url, lu, username, true, [], table⟩
  else .ok ⟨base_url, lu, username, false, [], []⟩

/-- An input element as the markup collaborator reports it: its type,
name and value attributes, each possibly absent. -/
structure InputTag where
  typeAttr : Option String
  nameAttr : Option String
  valueAttr : Option String
deriving DecidableEq, Repr

/-- The first form element of a page: its action attribute (possibly
absent) and its input elements. -/
structure FormTag where
  actionAttr : Option String
  inputs : List InputTag
deriving DecidableEq, Repr

/-- An HTTP response as the client inspects it: the page url, the
requests truthiness of the response (status below 400), whether the body
contains the OpenID transaction-in-progress title marker, and the first
form of the document if any. -/
structure Response where
  url : String
  ok : Bool
  hasMarker : Bool
  form : Option FormTag
deriving DecidableEq, Repr

/-- HTTP verbs the transport supports. -/
inductive Verb where
  | get
  | post
deriving DecidableEq, Repr

/-- One request handed to the transport: verb, url, form-encoded body,
and the auth params attached by the dispatcher. -/
structure Request where
  verb : Verb
  url : String
  body : List (String × Option String)
  authParams : List (String × Val)
deriving DecidableEq, Repr

/-- Loop body of _parse_service_form over the input elements: every
attribute is subscripted directly, so a missing type, name or value
attribute raises KeyError; submit inputs are skipped. -/
def serviceInputs : List InputTag → List (String × Option String) →
    Except PyError (List (String × Option String))
  | [], acc => .ok acc
  | child :: rest, acc =>
    match child.typeAttr with
    | none => .error (.keyError "type")
    | some t =>
      if t == "submit" then serviceInputs rest acc
      else
        match child.nameAttr with
        | none => .error (.keyError "name")
        | some n =>
          match child.valueAttr with
          | none => .error (.keyError "value")
          | some v => serviceInputs rest (dictInsert acc n (some v))

/-- Translation of _parse_service_form: a page without a form makes the
attribute access on None fail; otherwise collect the inputs and then
read the action attribute, whose absence raises KeyError. -/
def _parse_service_form (r : Response) :
    Except PyError (String × List (String × Option String)) :=
  match r.form with
  | none => .error (.attributeError "find_all")
  | some f =>
    match serviceInputs f.inputs [] with
    | .error e => .error e
    | .ok inputs =>
      match f.actionAttr with
      | none => .error (.keyError "action")
      | some a => .ok (a, inputs)

/-- Loop body of _parse_openid_login_form: a submit input is skipped
unless its name starts with decided_; a missing value attribute becomes
None; a kept input without a name attribute raises KeyError. -/
def openidInputs : List InputTag → List (String × Option String) →
    Except PyError (List (String × Option String))
  | [], acc => .ok acc
  | child :: rest, acc =>
    let skip : Bool :=
      (child.typeAttr == some "submit") &&
        !(match child.nameAttr with
          | some n => strStarts "decided_" n
          | none => false)
    if skip then openidInputs rest acc
    else
      match child.nameAttr with
      | none => .error (.keyError "name")
      | some n => openidInputs rest (dictInsert acc n child.valueAttr)

/-- Translation of _parse_openid_login_form, with the same missing-form
and missing-action failures as the service parser. -/
def _parse_openid_login_form (r : Response) :
    Except PyError (String × List (String × Option String)) :=
  match r.form with
  | none => .error (.attributeError "find_all")
  | some f =>
    match openidInputs f.inputs [] with
    | .error e => .error e
    | .ok inputs =>
      match f.actionAttr with
      | none => .error (.keyError "action")
      | some a => .ok (a, inputs)

/-- Tail of login from the consent form on: del data[decided_deny]
raises KeyError when the field is missing; otherwise the remaining
fields are posted to the already-resolved action, the service callback
form is extracted and posted to its action value verbatim — no
absolute_url is applied to service_url — and the final response is
returned.  The client state is threaded unchanged: login never writes
the session store.  The last component accumulates the requests made. -/
def loginConsent (server : Request → Response) (c : Client)
    (action : String) (data : List (String × Option String))
    (tr : List Request) :
    Except PyError (Option Response) × Client × List Request :=
  match dictLookup data "decided_deny" with
  | none => (.error (.keyError "decided_deny"), c, tr)
  | some _ =>
    let data1 := dictRemove data "decided_deny"
    let req4 : Request := ⟨.post, action, data1, []⟩
    let resp4 := server req4
    let tr4 := tr ++ [req4]
    match _parse_service_form resp4 with
    | .error e => (.error e, c, tr4)
    | .ok (service_url, data5) =>
      let req5 : Request := ⟨.post, service_url, data5, []⟩
      (.ok (some (server req5)), c, tr4 ++ [req5])

/-- Translation of login.  GET the login url; without the transaction
marker return immediately (a bare return, hence None).  Otherwise the
service form is posted to its action — openid_url, used verbatim — the
provider form is extracted, its action resolved by absolute_url against
openid_url (the url the provider page was requested from), credentials
are injected and posted when the provider asks for a username (the next
action again resolved against openid_url, not against the page that
carried it), and the consent tail runs. -/
def login (server : Request → Response) (c : Client)
    (username password : String) :
    Except PyError (Option Response) × Client × List Request :=
  let req1 : Request := ⟨.get, c.login_url, [], []⟩
  let resp1 := server req1
  let tr1 := [req1]
  if !resp1.hasMarker then (.ok none, c, tr1)
  else
    match _parse_service_form resp1 with
    | .error e => (.error e, c, tr1)
    | .ok (openid_url, data) =>
      let req2 : Request := ⟨.post, openid_url, data, []⟩
      let resp2 := server req2
      let tr2 := tr1 ++ [req2]
      match _parse_openid_login_form resp2 with
      | .error e => (.error e, c, tr2)
      | .ok (action0, data2) =>
        let action1 := absolute_url openid_url action0
        match dictLookup data2 "username" with
        | some _ =>
          let data3 :=
            dictInsert (dictInsert data2 "username" (some username))
              "password" (some password)
          let req3 : Request := ⟨.post, action1, data3, []⟩
          let resp3 := server req3
          let tr3 := tr2 ++ [req3]
          match _parse_openid_login_form resp3 with
          | .error e => (.error e, c, tr3)
          | .ok (action2, data4) =>
            loginConsent server c (absolute_url openid_url action2) data4 tr3
        | none => loginConsent server c action1 data2 tr2

/-- Translation of the requires_login wrapper around the authed POST
helper: run the request, and when the response is truthy (status ok) and
its body carries the transaction marker, raise LoginRequiredException
with the message built from the response url; otherwise return the
response. -/
def _authed_post (server : Request → Response) (url : String)
    (params : List (String × Val)) (data : List (String × Option String)) :
    Except PyError Response :=
  let resp := server ⟨.post, url, data, params⟩
  if resp.ok && resp.hasMarker then
    .error (.loginRequired (resp.url ++ " requires a logged in user"))
  else .ok resp

/-- Translation of the requires_login wrapper around the authed GET
helper. -/
def _authed_get (server : Request → Response) (url : String)
    (params : List (String × Val)) (data : List (String × Option String)) :
    Except PyError Response :=
  let resp := server ⟨.get, url, data, params⟩
  if resp.ok && resp.hasMarker then
    .error (.loginRequired (resp.url ++ " requires a logged in user"))
  else .ok resp

/-- Translation of send_request.  With auth set, the session_id and
openid_session_id properties are read to build auth_params (each read is
a _get_id, so each may grow the in-memory map); the dispatcher table is
then subscripted with (auth, verb) — an unknown verb is a KeyError on
that subscript, caught and re-raised as the generic unknown-verb
exception — and for a known verb the helper is called with auth_params
as a keyword argument, which _authed_post and _authed_get do not accept:
the call raises TypeError inside the requires_login wrapper before any
HTTP request is made, and neither the KeyError handler nor the
LoginRequiredException handler catches it, so it propagates to the
caller (the marker check and the re-raise of the undefined name
AuthError on the LoginRequiredException path are unreachable from
here).  Without auth no branch runs at all: the dispatcher table is
built and the function returns None without calling the transport.  The
last component records the transport requests issued. -/
def send_request (server : Request → Response) (c : Client)
    (method : String) (auth : Bool) (verb : String)
    (data : List (String × Option String)) :
    Except PyError (Option Response) × Client × List Request :=
  if auth then
    let g1 := _get_id c none
    let g2 := _get_id g1.2 (some "FAS_OPENID")
    if verb == "POST" then
      (.error (.typeError
        "_authed_post() got an unexpected keyword argument auth_params"),
        g2.2, [])
    else if verb == "GET" then
      (.error (.typeError
        "_authed_get() got an unexpected keyword argument auth_params"),
        g2.2, [])
    else (.error (.unknownVerb "Unknown HTTP verb"), g2.2, [])
  else (.ok none, c, [])

/-- Fresh client for alice: caching enabled, empty in-memory map, empty
sessions table. -/
def aliceClient : Client :=
  ⟨"https://service.example", "https://service.example/login", some "alice",
    true, [], []⟩

/-- Client for alice reading a sessions file that already holds a row
for her and the service base url. -/
def aliceClientDisk : Client :=
  ⟨"https://service.example", "https://service.example/login", some "alice",
    true, [], [⟨"alice", "https://service.example", "tok123"⟩]⟩

/-- Client for alice whose in-memory map already has the materialised
empty-string entry a lookup creates. -/
def aliceClientTouched : Client :=
  ⟨"https://service.example", "https://service.example/login", some "alice",
    true, [("https://service.example:alice", .str "")], []⟩

/-- Memory-only client for alice, as produced when persistence is
disabled. -/
def aliceClientMemory : Client :=
  ⟨"https://service.example", "https://service.example/login", some "alice",
    false, [], []⟩

/-- Server whose login page carries no transaction marker: the session
cookie is still valid. -/
def noMarkerServer : Request → Response := fun _ =>
  ⟨"https://service.example/login", true, false, none⟩

/-- Login page of the service: marker present, redirect form whose
action is the provider endpoint, one hidden field. -/
def loginPage : Response :=
  ⟨"https://service.example/login", true, true,
    some ⟨some "https://idp.example/op",
      [⟨some "hidden", some "openid.mode", some "checkid_setup"⟩]⟩⟩

/-- Provider consent page served from the provider endpoint: its form
action is the relative path /continue, and it carries the two decision
submit inputs plus a hidden mode field. -/
def consentPage : Response :=
  ⟨"https://idp.example/op", true, true,
    some ⟨some "/continue",
      [⟨some "submit", some "decided_allow", some "Allow"⟩,
       ⟨some "submit", some "decided_deny", some "Deny"⟩,
       ⟨some "hidden", some "openid.mode", some "id_res"⟩]⟩⟩

/-- Provider redirect back to the service: a callback form with an
absolute action on the service host. -/
def callbackPage : Response :=
  ⟨"https://idp.example/continue", true, true,
    some ⟨some "https://service.example/callback",
      [⟨some "hidden", some "token", some "abc"⟩]⟩⟩

/-- Final authenticated page: no marker, no form. -/
def finalPage : Response :=
  ⟨"https://service.example/callback", true, false, none⟩

/-- Well-behaved identity-provider server used to drive a complete login
sequence. -/
def idpServer : Request → Response := fun r =>
  if r.url == "https://service.example/login" then loginPage
  else if r.url == "https://idp.example/op" then consentPage
  else if r.url == "https://idp.example/continue" then callbackPage
  else finalPage

/-- Login page whose redirect form carries a relative action, so the
page that contains the form is the login page itself. -/
def relActionLoginPage : Response :=
  ⟨"https://service.example/login", true, true,
    some ⟨some "/openid",
      [⟨some "hidden", some "openid.mode", some "checkid_setup"⟩]⟩⟩

/-- Server serving the relative-action login page; every other response
is a plain page. -/
def relActionServer : Request → Response := fun r =>
  if r.url == "https://service.example/login" then relActionLoginPage
  else ⟨"https://service.example/x", true, false, none⟩

/-- Provider consent page whose form lacks the decided_deny input. -/
def noDenyPage : Response :=
  ⟨"https://idp.example/op", true, true,
    some ⟨some "/continue",
      [⟨some "submit", some "decided_allow", some "Allow"⟩,
       ⟨some "hidden", some "openid.mode", some "id_res"⟩]⟩⟩

/-- Server whose provider response is the consent page without the
decided_deny field. -/
def noDenyServer : Request → Response := fun r =>
  if r.url == "https://service.example/login" then loginPage
  else noDenyPage

/-- Server whose provider response is a page with no form at all. -/
def brokenIdpServer : Request → Response := fun r =>
  if r.url == "https://service.example/login" then loginPage
  else ⟨"https://idp.example/op", true, true, none⟩

/-- Server that answers every request with a successful page whose body
carries the transaction-in-progress marker: the cached session has
expired and the server redirected into a fresh OpenID flow. -/
def markerServer : Request → Response := fun _ =>
  ⟨"https://service.example/op", true, true, none⟩

/-- Storage circumstances where the session directory is absent and
creating it fails (for instance a permission error). -/
def envMkdirFails : StorageEnv := ⟨false, false, false, true, true, []⟩

/-- Storage circumstances where the session file exists but cannot be
opened. -/
def envFileUnreadable : StorageEnv := ⟨true, true, true, true, false, []⟩

/-- Looking a key up right after inserting it finds the inserted value. -/
theorem dictLookup_dictInsert_self {α : Type} (m : List (String × α))
    (k : String) (v : α) : dictLookup (dictInsert m k v) k = some v := by
  induction m with
  | nil => simp [dictInsert, dictLookup]
  | cons kv rest ih =>
    by_cases h : kv.1 == k
    · simp [dictInsert, h, dictLookup]
    · simp [dictInsert, h, dictLookup, ih]

/-- Looking a key up after removing it finds nothing. -/
theorem dictLookup_dictRemove_self {α : Type} (m : List (String × α))
    (k : String) : dictLookup (dictRemove m k) k = none := by
  induction m with
  | nil => simp [dictRemove, dictLookup]
  | cons kv rest ih =>
    by_cases h : kv.1 == k
    · simpa [dictRemove, List.filter_cons, h] using ih
    · simpa [dictRemove, List.filter_cons, h, dictLookup] using ih

/-- When no element of a list satisfies a predicate, filtering by its
negation keeps the whole list. -/
theorem filter_not_of_filter_nil {α : Type} (l : List α) (p : α → Bool)
    (h : l.filter p = []) : l.filter (fun a => !(p a)) = l := by
  induction l with
  | nil => rfl
  | cons a t ih =>
    rw [List.filter_cons] at h
    by_cases hp : p a
    · rw [if_pos hp] at h
      exact absurd h (List.cons_ne_nil _ _)
    · rw [if_neg hp] at h
      have hpa : p a = false := Bool.eq_false_iff.mpr hp
      rw [List.filter_cons]
      rw [if_pos (by rw [hpa]; rfl)]
      rw [ih h]

/-- Claim C1: the round trip fails on the code.  Store.set with a
username and caching enabled raises AttributeError on the misspelled
cursor.exectue and writes nothing to the sessions table (though the
in-memory entry is written), so a fresh client reads back the empty
default instead of the token; and even when a disk row for the key does
exist, the fresh client returns the entire fetched row — the 3-tuple
found_sessions[0] — rather than the token string. -/
theorem set_then_fresh_get_does_not_return_token :
    (_set_id aliceClient "tok123" none).2 =
      some (.attributeError "exectue") ∧
    ((_set_id aliceClient "tok123" none).1).db = [] ∧
    dictLookup ((_set_id aliceClient "tok123" none).1).map
      "https://service.example:alice" = some (.str "tok123") ∧
    (_get_id aliceClient none).1 = .str "" ∧
    (_get_id aliceClient none).1 ≠ .str "tok123" ∧
    (_get_id aliceClientDisk none).1 =
      .row ⟨"alice", "https://service.example", "tok123"⟩ ∧
    (_get_id aliceClientDisk none).1 ≠ .str "tok123" := by
  refine ⟨rfl, rfl, rfl, rfl, by decide, rfl, by decide⟩

/-- Claim C2: the upsert fails on disk.  Each of the two sets performs
the in-memory assignment — after which the map holds exactly one entry
for the key, with the latest token — but the disk branch raises
AttributeError on the misspelled cursor.exectue before any insert or
update statement runs, so the sessions table never receives a record. -/
theorem double_set_writes_no_disk_record :
    (_set_id aliceClient "t1" none).2 = some (.attributeError "exectue") ∧
    (_set_id (_set_id aliceClient "t1" none).1 "t2" none).2 =
      some (.attributeError "exectue") ∧
    ((_set_id (_set_id aliceClient "t1" none).1 "t2" none).1).map =
      [("https://service.example:alice", .str "t2")] ∧
    ((_set_id (_set_id aliceClient "t1" none).1 "t2" none).1).db = [] := by
  refine ⟨rfl, rfl, rfl, rfl⟩

/-- Claim C3, counterexample: on a fresh client, deleting the key —
which has no in-memory entry and no disk record — raises KeyError from
the del statement on the defaultdict, instead of returning normally. -/
theorem del_missing_key_raises :
    (_del_id aliceClient none).2 =
      some (.keyError "https://service.example:alice") ∧
    (_del_id aliceClient none).1 = aliceClient := by
  refine ⟨rfl, by decide⟩

/-- Claim C3, amended: deleting a key that does have an in-memory entry
returns normally, removes the entry, and when no disk record matches the
key the sessions table is left unchanged; only a key never materialised
in the in-memory map makes delete raise KeyError. -/
theorem del_present_key_no_error (c : Client) (bu : Option String) (v : Val)
    (h : dictLookup c.map (sessionKey c bu) = some v) :
    (_del_id c bu).2 = none ∧
    dictLookup ((_del_id c bu).1).map (sessionKey c bu) = none ∧
    (lookupRows c (pyOr bu c.base_url) (pyOr c.username "") = [] →
      ((_del_id c bu).1).db = c.db) := by
  unfold _del_id sessionKey at *
  simp only [h]
  refine ⟨?_, ?_, ?_⟩
  · split
    · rfl
    · split <;> rfl
  · split
    · simp [withMap, dictLookup_dictRemove_self]
    · split <;> simp [withMap, withDb, dictLookup_dictRemove_self]
  · intro hdb
    unfold lookupRows at hdb
    split
    · rfl
    · split
      · simp only [withMap, withDb]
        exact filter_not_of_filter_nil _ _ hdb
      · rfl

/-- Claim C3, witness: a client whose map carries the materialised empty
entry deletes it without error, and its empty sessions table stays
empty. -/
theorem del_present_key_no_error_witness :
    (_del_id aliceClientTouched none).2 = none ∧
    dictLookup ((_del_id aliceClientTouched none).1).map
      (sessionKey aliceClientTouched none) = none ∧
    ((_del_id aliceClientTouched none).1).db = aliceClientTouched.db := by
  have t := del_present_key_no_error aliceClientTouched none (.str "") rfl
  exact ⟨t.1, t.2.1, t.2.2 rfl⟩

/-- Claim C4: when the GET of the login url returns a body without the
transaction-in-progress marker, login returns at once: the request trace
is exactly that single GET, the client state — session store included —
is unchanged, and the identity provider is never contacted. -/
theorem login_valid_session_single_request (server : Request → Response)
    (c : Client) (u p : String)
    (h : (server ⟨.get, c.login_url, [], []⟩).hasMarker = false) :
    login server c u p = (.ok none, c, [⟨.get, c.login_url, [], []⟩]) := by
  unfold login
  simp [h]

/-- Claim C4, witness: against a server whose login page has no marker,
login makes one GET and stops. -/
theorem login_valid_session_single_request_witness :
    (noMarkerServer ⟨.get, aliceClient.login_url, [], []⟩).hasMarker =
      false ∧
    login noMarkerServer aliceClient "alice" "pw" =
      (.ok none, aliceClient, [⟨.get, aliceClient.login_url, [], []⟩]) :=
  ⟨rfl,
    login_valid_session_single_request noMarkerServer aliceClient
      "alice" "pw" rfl⟩

/-- Claim C5, counterexample: the service redirect form is posted to its
action value verbatim, with no resolution at all: when the login page at
the service carries the relative action /openid, the second request of
the trace goes to the literal string /openid, not to the action resolved
against the url of the page that contained the form. -/
theorem service_form_action_posted_unresolved :
    ((login relActionServer aliceClient "u" "p").2.2)[1]? =
      some ⟨.post, "/openid", [("openid.mode", some "checkid_setup")], []⟩ ∧
    urljoin "https://service.example/login" "/openid" =
      "https://service.example/openid" ∧
    ("/openid" : String) ≠ "https://service.example/openid" := by
  refine ⟨by decide, by decide, by decide⟩

/-- Claim C5, amended: only the identity-provider forms have their
actions resolved, and the resolution base is openid_url — the action of
the service form, which is the url of the page bearing the first
provider form — never the service base url; a provider form with the
relative action /continue when openid_url is https://idp.example/op is
posted to https://idp.example/continue.  The service redirect form and
the final callback form are posted to their action values verbatim. -/
theorem provider_form_actions_resolved_against_openid_url
    (server : Request → Response) (c : Client) (u p : String)
    (A : String) (d : List (String × Option String)) (B : String)
    (d2 : List (String × Option String)) (w : Option String)
    (S : String) (d5 : List (String × Option String))
    (h1 : (server ⟨.get, c.login_url, [], []⟩).hasMarker = true)
    (h2 : _parse_service_form (server ⟨.get, c.login_url, [], []⟩) =
      .ok (A, d))
    (h3 : _parse_openid_login_form (server ⟨.post, A, d, []⟩) = .ok (B, d2))
    (h4 : dictLookup d2 "username" = none)
    (h5 : dictLookup d2 "decided_deny" = some w)
    (h6 : _parse_service_form
        (server ⟨.post, absolute_url A B, dictRemove d2 "decided_deny", []⟩) =
      .ok (S, d5)) :
    login server c u p =
      (.ok (some (server ⟨.post, S, d5, []⟩)), c,
       [⟨.get, c.login_url, [], []⟩,
        ⟨.post, A, d, []⟩,
        ⟨.post, absolute_url A B, dictRemove d2 "decided_deny", []⟩,
        ⟨.post, S, d5, []⟩]) ∧
    absolute_url "https://idp.example/op" "/continue" =
      "https://idp.example/continue" := by
  constructor
  · unfold login loginConsent
    simp [h1, h2, h3, h4, h5, h6]
  · decide

/-- Claim C5, witness: a complete login run in which the provider form
served from https://idp.example/op carries the action /continue and is
posted to https://idp.example/continue, while the service and callback
form actions are used verbatim. -/
theorem provider_form_actions_resolved_against_openid_url_witness :
    login idpServer aliceClient "alice" "pw" =
      (.ok (some finalPage), aliceClient,
       [⟨.get, "https://service.example/login", [], []⟩,
        ⟨.post, "https://idp.example/op",
          [("openid.mode", some "checkid_setup")], []⟩,
        ⟨.post, "https://idp.example/continue",
          [("decided_allow", some "Allow"), ("openid.mode", some "id_res")],
          []⟩,
        ⟨.post, "https://service.example/callback",
          [("token", some "abc")], []⟩]) ∧
    absolute_url "https://idp.example/op" "/continue" =
      "https://idp.example/continue" := by
  have t := provider_form_actions_resolved_against_openid_url idpServer
    aliceClient "alice" "pw" "https://idp.example/op"
    [("openid.mode", some "checkid_setup")] "/continue"
    [("decided_allow", some "Allow"), ("decided_deny", some "Deny"),
     ("openid.mode", some "id_res")] (some "Deny")
    "https://service.example/callback" [("token", some "abc")]
    rfl rfl rfl rfl rfl rfl
  exact t

/-- Claim C6, counterexample: when the provider consent form lacks the
decided_deny field, login raises the untyped KeyError of the del
statement on the form dictionary; there is no ProtocolError in the
module, and no typed failure is produced. -/
theorem missing_decided_deny_raises_key_error :
    (login noDenyServer aliceClient "u" "p").1 =
      .error (.keyError "decided_deny") ∧
    (login noDenyServer aliceClient "u" "p").2.1 = aliceClient := by
  refine ⟨rfl, rfl⟩

/-- Claim C6, amended: a malformed provider response — missing form,
missing action, missing expected attribute or field — terminates login
by raising the underlying untyped exception (a missing-attribute or
missing-key error; the module defines no ProtocolError), making no
further requests and never returning the malformed response as a
success value. -/
theorem malformed_provider_response_propagates_untyped_error
    (server : Request → Response) (c : Client) (u p : String)
    (A : String) (d : List (String × Option String)) (e : PyError)
    (h1 : (server ⟨.get, c.login_url, [], []⟩).hasMarker = true)
    (h2 : _parse_service_form (server ⟨.get, c.login_url, [], []⟩) =
      .ok (A, d))
    (hE : _parse_openid_login_form (server ⟨.post, A, d, []⟩) = .error e) :
    login server c u p =
      (.error e, c, [⟨.get, c.login_url, [], []⟩, ⟨.post, A, d, []⟩]) := by
  unfold login
  simp [h1, h2, hE]

/-- Claim C6, witness: a provider response with no form at all makes
login stop after two requests with the AttributeError of reading
find_all on None. -/
theorem malformed_provider_response_propagates_untyped_error_witness :
    login brokenIdpServer aliceClient "u" "p" =
      (.error (.attributeError "find_all"), aliceClient,
       [⟨.get, "https://service.example/login", [], []⟩,
        ⟨.post, "https://idp.example/op",
          [("openid.mode", some "checkid_setup")], []⟩]) :=
  malformed_provider_response_propagates_untyped_error brokenIdpServer
    aliceClient "u" "p" "https://idp.example/op"
    [("openid.mode", some "checkid_setup")] (.attributeError "find_all")
    rfl rfl rfl

/-- Claim C7: the dispatcher never reaches the marker check.  Through
send_request the authed helper is called with the keyword argument
auth_params, which it does not accept, so the auth path raises TypeError
inside the requires_login wrapper before any HTTP request is made — the
trace is empty, no response body exists to inspect or to return, and the
LoginRequiredException handler with its re-raise of the undefined name
AuthError is unreachable from here.  The requires_login wrapper itself,
called with its real signature, does raise LoginRequiredException
carrying the redirect url in its message and never returns the marker
body — the behaviour the claim describes is the evident intent. -/
theorem authed_send_request_raises_type_error_before_request :
    (send_request markerServer aliceClient "/api/x" true "POST" []).1 =
      .error (.typeError
        "_authed_post() got an unexpected keyword argument auth_params") ∧
    (send_request markerServer aliceClient "/api/x" true "POST" []).2.2 =
      [] ∧
    _authed_post markerServer "/api/x" [] [] =
      .error (.loginRequired
        "https://service.example/op requires a logged in user") := by
  refine ⟨rfl, rfl, rfl⟩

/-- Claim C8: with auth false, send_request builds the dispatcher table
and then falls through without running any branch: no transport request
is made at all — the trace is empty — and the caller receives None
rather than a transport response. -/
theorem unauthenticated_send_request_makes_no_request
    (server : Request → Response) (c : Client) (m verb : String)
    (d : List (String × Option String))
    (hverb : verb = "GET" ∨ verb = "POST") :
    send_request server c m false verb d = (.ok none, c, []) := by
  unfold send_request
  simp

/-- Claim C8, witness: an unauthenticated GET through send_request
contacts no server and returns None. -/
theorem unauthenticated_send_request_makes_no_request_witness :
    ("GET" = "GET" ∨ ("GET" : String) = "POST") ∧
    send_request markerServer aliceClient "/api/x" false "GET" [] =
      (.ok none, aliceClient, []) :=
  ⟨Or.inl rfl,
    unauthenticated_send_request_makes_no_request markerServer aliceClient
      "/api/x" "GET" [] (Or.inl rfl)⟩

/-- Claim C9: when the session directory is absent and creating it
fails, constructing the client raises AttributeError — the fallback
branch applies .format to the None returned by log.warning — instead of
degrading to memory-only mode; the other failure branches do degrade as
intended (an unreadable session file yields a client with caching
disabled whose get and set work purely in memory). -/
theorem client_init_crashes_when_mkdir_fails :
    initClient "https://service.example" none (some "alice") true
      envMkdirFails = .error (.attributeError "format") ∧
    initClient "https://service.example" none (some "alice") true
      envFileUnreadable = .ok aliceClientMemory ∧
    (_set_id aliceClientMemory "tok" none).2 = none ∧
    (_get_id (_set_id aliceClientMemory "tok" none).1 none).1 =
      .str "tok" := by
  refine ⟨rfl, rfl, rfl, rfl⟩

/-- Claim C10: a get on a key with no in-memory entry and no disk record
materialises an empty-string entry for that key in the in-memory map —
the key set grows — and returns the empty default; a delete issued
before such a get raises KeyError while the same delete issued after it
returns normally. -/
theorem get_inserts_empty_entry_and_changes_delete
    (c : Client) (bu : Option String)
    (hmap : dictLookup c.map (sessionKey c bu) = none)
    (hdb : lookupRows c (pyOr bu c.base_url) (pyOr c.username "") = []) :
    dictLookup ((_get_id c bu).2).map (sessionKey c bu) =
      some (.str "") ∧
    (_get_id c bu).1 = .str "" ∧
    (_del_id c bu).2 = some (.keyError (sessionKey c bu)) ∧
    (_del_id ((_get_id c bu).2) bu).2 = none := by
  unfold _get_id _del_id sessionKey at *
  simp only [hmap, hdb] at *
  simp [dictLookup_dictInsert_self, Val.truthy, withMap]
  split
  · rfl
  · split <;> rfl

/-- Claim C10, witness: on the fresh client the lookup materialises the
empty entry and flips the behaviour of delete. -/
theorem get_inserts_empty_entry_and_changes_delete_witness :
    dictLookup ((_get_id aliceClient none).2).map
      (sessionKey aliceClient none) = some (.str "") ∧
    (_get_id aliceClient none).1 = .str "" ∧
    (_del_id aliceClient none).2 =
      some (.keyError (sessionKey aliceClient none)) ∧
    (_del_id ((_get_id aliceClient none).2) none).2 = none :=
  get_inserts_empty_entry_and_changes_delete aliceClient none rfl rfl

end PyFedora
